import Mathlib

/-!
Shallow embedding of the `x402-bch-axios` payment-interceptor library.

The embedding follows `src/index.js` (the v1 implementation present in the
sources): the UTXO cache and its settle-or-reuse step, the v1
`createPaymentHeader`, `selectPaymentRequirements`, and the response-error
handler installed by `withPaymentInterceptor`.  The protocol-v2 parts of the
library (CAIP-2 network classification, the dual-generation header builder and
the dual-path funding engine) are documented in the repository's README and
exercised by its unit tests, but their source file is not among the sources;
those parts are modelled from the specification and are marked as such in
their doc comments.

JavaScript values are mapped as follows: numbers used as satoshi amounts are
`Int`; `string | null` is `Option String`; JS truthiness of such a value
(`!x`) is false exactly for `null` and the empty string; JSON documents are
the `Json` inductive below with a deterministic renderer mirroring
`JSON.stringify` (object keys in insertion order).
-/

namespace X402

/-- JSON value tree, the target of `JSON.stringify` in the source. -/
inductive Json where
  | null : Json
  | bool : Bool → Json
  | num : Int → Json
  | str : String → Json
  | arr : List Json → Json
  | obj : List (String × Json) → Json

mutual

/-- Compact serialization in the style of `JSON.stringify`: no whitespace,
object keys in insertion order. -/
def Json.render : Json → String
  | .null => "null"
  | .bool b => if b then "true" else "false"
  | .num n => toString n
  | .str s => "\"" ++ s ++ "\""
  | .arr xs => "[" ++ Json.renderList xs ++ "]"
  | .obj kvs => "\x7b" ++ Json.renderObjList kvs ++ "\x7d"

/-- Render a JSON array body (comma separated). -/
def Json.renderList : List Json → String
  | [] => ""
  | [x] => Json.render x
  | x :: xs => Json.render x ++ "," ++ Json.renderList xs

/-- Render a JSON object body (comma separated `"key":value` pairs). -/
def Json.renderObjList : List (String × Json) → String
  | [] => ""
  | [kv] => "\"" ++ kv.1 ++ "\":" ++ Json.render kv.2
  | kv :: kvs => "\"" ++ kv.1 ++ "\":" ++ Json.render kv.2 ++ "," ++ Json.renderObjList kvs

end

/-- Field lookup on a JSON object (first binding wins, as in a JS object). -/
def Json.getKey : Json → String → Option Json
  | .obj kvs, k => (kvs.find? (fun kv => kv.1 == k)).map (fun kv => kv.2)
  | _, _ => none

/-- Whether a JSON object carries a field named `k`. -/
def Json.hasKey (j : Json) (k : String) : Bool :=
  (j.getKey k).isSome

/-- A nullable string rendered into JSON (`null` for `none`). -/
def optionStrJson : Option String → Json
  | some s => .str s
  | none => .null

/-- A nullable integer rendered into JSON (`null` for `none`). -/
def optionIntJson : Option Int → Json
  | some n => .num n
  | none => .null

/-- JS truthiness of a `string | null` value: `!x` is true for `null` and
for the empty string. -/
def jsFalsyStr : Option String → Bool
  | none => true
  | some s => s == ""

/-- JS `x || d` on a `string | null` value: falls back to the default for
`null` and for the empty string. -/
def jsOrString (v : Option String) (d : String) : String :=
  match v with
  | some s => if s == "" then d else s
  | none => d

/-! ## Data model (from `src/index.js`) -/

/-- The signer record produced by `createSigner` (`src/index.js` lines
31-47): address, default spend amount, key material, and the message-signing
capability, which is kept abstract. -/
structure Signer where
  address : String
  paymentAmountSats : Int
  wif : String
  signMessage : String → String

/-- A payment requirement from a 402 `accepts` array, as consumed by the v1
code: `scheme`/`network` may be absent, `payTo` and the owed amount
`minAmountRequired` are read directly. -/
structure PaymentRequirement where
  scheme : Option String
  network : Option String
  payTo : String
  minAmountRequired : Int
deriving DecidableEq

/-- A funding result, the shape returned by `sendPayment` (`src/index.js`
lines 132-136). -/
structure FundResult where
  txid : String
  vout : Int
  satsSent : Int
deriving DecidableEq

/-- The process-wide UTXO cache record `currentUtxo` (`src/index.js` lines
18-22). -/
structure UtxoCache where
  txid : Option String
  vout : Option Int
  satsLeft : Int
deriving DecidableEq

/-- The initial (empty) cache: `{txid: null, vout: null, satsLeft: 0}`. -/
def initialUtxo : UtxoCache := ⟨none, none, 0⟩

/-! ## Settle-or-reuse step (from `src/index.js` lines 191-208) -/

/-- The funding guard `!currentUtxo.txid || currentUtxo.satsLeft < cost`
(`src/index.js` line 195). -/
def needsFunding (cache : UtxoCache) (cost : Int) : Bool :=
  jsFalsyStr cache.txid || decide (cache.satsLeft < cost)

/-- One settlement of the UTXO cache against an owed amount `cost`
(`src/index.js` lines 191-208): if the guard fires, the funding result `p`
is consumed and the cache is overwritten with `{p.txid, p.vout,
p.satsSent - cost}`; otherwise the cached output is reused and `satsLeft`
is decremented.  The second component counts calls to `sendPayment`
(0 or 1). -/
def settleStep (cache : UtxoCache) (cost : Int) (p : FundResult) : UtxoCache × Nat :=
  if needsFunding cache cost then
    (⟨some p.txid, some p.vout, p.satsSent - cost⟩, 1)
  else
    (⟨cache.txid, cache.vout, cache.satsLeft - cost⟩, 0)

/-- A sequence of settlements starting from the empty cache; each step is an
owed amount paired with the funding result `sendPayment` would return if
called at that step. -/
def runSettlements (steps : List (Int × FundResult)) : UtxoCache :=
  steps.foldl (fun c s => (settleStep c s.1 s.2).1) initialUtxo

/-! ## v1 requirement selection (from `src/index.js` lines 57-67) -/

/-- The filter predicate of the v1 `selectPaymentRequirements`:
`req?.network === 'bch' && req?.scheme === 'utxo'`. -/
def isBchUtxoRequirement (r : PaymentRequirement) : Bool :=
  r.network == some "bch" && r.scheme == some "utxo"

/-- `selectPaymentRequirements` from `src/index.js` lines 57-67: filter to
BCH `utxo` requirements and return the first, throwing when none remain. -/
def selectPaymentRequirements (accepts : List PaymentRequirement) :
    Except String PaymentRequirement :=
  match accepts.filter isBchUtxoRequirement with
  | [] => .error "No BCH payment requirements found in 402 response"
  | r :: _ => .ok r

/-! ## v1 header codec (from `src/index.js` lines 79-110) -/

/-- The `authorization` object built by `createPaymentHeader`
(`src/index.js` lines 87-94): field order as written in the source. -/
def buildAuthorizationV1 (signer : Signer) (req : PaymentRequirement)
    (txid : Option String) (vout : Option Int) : Json :=
  .obj [("from", .str signer.address),
        ("to", .str req.payTo),
        ("value", .num req.minAmountRequired),
        ("txid", optionStrJson txid),
        ("vout", optionIntJson vout),
        ("amount", .num signer.paymentAmountSats)]

/-- `messageToSign = JSON.stringify(authorization)` (`src/index.js` line
96). -/
def signedMessageV1 (signer : Signer) (req : PaymentRequirement)
    (txid : Option String) (vout : Option Int) : String :=
  (buildAuthorizationV1 signer req txid vout).render

/-- The `paymentHeader` object of `createPaymentHeader` (`src/index.js`
lines 99-107): flat v1 shape with top-level `scheme`/`network` defaults
applied by JS `||`. -/
def paymentHeaderJsonV1 (signer : Signer) (req : PaymentRequirement)
    (x402Version : Int) (txid : Option String) (vout : Option Int) : Json :=
  .obj [("x402Version", .num x402Version),
        ("scheme", .str (jsOrString req.scheme "utxo")),
        ("network", .str (jsOrString req.network "bch")),
        ("payload", .obj [
          ("signature", .str (signer.signMessage (signedMessageV1 signer req txid vout))),
          ("authorization", buildAuthorizationV1 signer req txid vout)])]

/-- `createPaymentHeader` (`src/index.js` lines 79-110): serialize the
payment-header object. -/
def createPaymentHeader (signer : Signer) (req : PaymentRequirement)
    (x402Version : Int) (txid : Option String) (vout : Option Int) : String :=
  (paymentHeaderJsonV1 signer req x402Version txid vout).render

/-! ## Interceptor error handler (from `src/index.js` lines 166-228) -/

/-- The axios request configuration as seen by the handler: a (possibly
absent) header map and the private `__is402Retry` marker. -/
structure AxiosConfig where
  headers : Option (List (String × String))
  is402Retry : Bool
deriving DecidableEq

/-- The body of a 402 response: `x402Version` and the `accepts` array, both
possibly absent. -/
structure ResponseData where
  x402Version : Option Int
  accepts : Option (List PaymentRequirement)
deriving DecidableEq

/-- The `response` part of an axios error. -/
structure AxiosResponse where
  status : Int
  data : Option ResponseData
deriving DecidableEq

/-- An intercepted axios error: response and original request
configuration, each possibly absent. -/
structure AxiosError where
  response : Option AxiosResponse
  config : Option AxiosConfig
deriving DecidableEq

/-- The observable outcome of the error handler: reject with the original
error, reject with a (new or propagated) error value carrying a message, or
replay the request with the mutated configuration. -/
inductive Outcome where
  | rejectOriginal : Outcome
  | rejectError : String → Outcome
  | replay : AxiosConfig → Outcome
deriving DecidableEq

/-- Result of one run of the handler: outcome, the cache after the run, and
how many times `sendPayment` was invoked. -/
structure HandlerResult where
  outcome : Outcome
  cache : UtxoCache
  fundCalls : Nat
deriving DecidableEq

/-- JS object-key assignment `headers[k] = v` on the header map. -/
def setHeader (hs : List (String × String)) (k v : String) : List (String × String) :=
  if hs.any (fun p => p.1 == k) then hs.map (fun p => if p.1 == k then (k, v) else p)
  else hs ++ [(k, v)]

/-- JS `x402Version || 1` (`src/index.js` line 213): `0` and absence are
falsy and fall back to `1`. -/
def jsOrVersion : Option Int → Int
  | some n => if n == 0 then 1 else n
  | none => 1

/-- The `accepts` list the handler destructures from
`error.response.data || {}` (`src/index.js` line 183), with absence mapped
to the empty list. -/
def extractAccepts (error : AxiosError) : List PaymentRequirement :=
  match error.response with
  | none => []
  | some resp => ((resp.data.bind (fun d => d.accepts)).getD [])

/-- The error handler installed by `withPaymentInterceptor` (`src/index.js`
lines 168-227), as a pure function of the intercepted error, the current
UTXO cache, the configured requirement selector, and the result
`sendPayment` would produce if called (`Except.error` models a throw). -/
def handle402 (selector : List PaymentRequirement → Except String PaymentRequirement)
    (signer : Signer) (error : AxiosError) (cache : UtxoCache)
    (fund : Except String FundResult) : HandlerResult :=
  match error.response with
  | none => ⟨.rejectOriginal, cache, 0⟩
  | some resp =>
    if resp.status != 402 then ⟨.rejectOriginal, cache, 0⟩
    else
      match error.config with
      | none => ⟨.rejectError "Missing axios request configuration", cache, 0⟩
      | some cfg =>
        match cfg.headers with
        | none => ⟨.rejectError "Missing axios request configuration", cache, 0⟩
        | some hs =>
          if cfg.is402Retry then ⟨.rejectOriginal, cache, 0⟩
          else
            match resp.data.bind (fun d => d.accepts) with
            | none => ⟨.rejectError "No payment requirements found in 402 response", cache, 0⟩
            | some accepts =>
              if accepts.isEmpty then
                ⟨.rejectError "No payment requirements found in 402 response", cache, 0⟩
              else
                match selector accepts with
                | .error m => ⟨.rejectError m, cache, 0⟩
                | .ok req =>
                  let cost := req.minAmountRequired
                  let ver := jsOrVersion (resp.data.bind (fun d => d.x402Version))
                  if needsFunding cache cost then
                    match fund with
                    | .error m => ⟨.rejectError m, cache, 1⟩
                    | .ok p =>
                      let newCache : UtxoCache := ⟨some p.txid, some p.vout, p.satsSent - cost⟩
                      let hdr := createPaymentHeader signer req ver (some p.txid) (some p.vout)
                      ⟨.replay ⟨some (setHeader (setHeader hs "X-PAYMENT" hdr)
                          "Access-Control-Expose-Headers" "X-PAYMENT-RESPONSE"), true⟩,
                        newCache, 1⟩
                  else
                    let newCache : UtxoCache := ⟨cache.txid, cache.vout, cache.satsLeft - cost⟩
                    let hdr := createPaymentHeader signer req ver cache.txid cache.vout
                    ⟨.replay ⟨some (setHeader (setHeader hs "X-PAYMENT" hdr)
                        "Access-Control-Expose-Headers" "X-PAYMENT-RESPONSE"), true⟩,
                      newCache, 0⟩

/-! ## Protocol-v2 components, modelled from the specification

The repository at protocol version 2 documents (README) and unit-tests a
`bip122:`-aware requirement selector, a dual-generation header builder and a
dual-path funding engine, but the v2 `index.js` itself is not among the
sources — only the v1 `index.js` is.  The definitions below are modelled
from the specification (sections 4.1-4.3) and marked accordingly. -/

/-- The one known namespaced (CAIP-2) mainnet identifier for the supported
chain. -/
def CAIP_BCH_MAINNET : String := "bip122:000000000000000000651ef99cb9fcbe"

/-- JS `String.prototype.startsWith`: whether `pat` is a prefix of `s`. -/
def strStartsWith (s pat : String) : Bool :=
  pat.data.isPrefixOf s.data

/-- Modelled from the spec: `isSupportedNetwork` of the v2 `index.js`
(missing from the sources; only its unit tests and README are present).
Spec section 4.1: true if the network equals the legacy literal, equals the
one known namespaced mainnet identifier, or starts with the namespace
prefix. -/
def isSupportedNetwork (network : String) : Bool :=
  network == "bch" || network == CAIP_BCH_MAINNET || strStartsWith network "bip122:"

/-- A payment requirement as consumed by the protocol-v2 code: amounts may
arrive under `amount` or the legacy `minAmountRequired`, as a number or a
numeric string, so they are carried as JSON values; the remaining fields
are optional pass-through data. -/
structure RequirementV2 where
  scheme : Option String
  network : Option String
  payTo : String
  amount : Option Json
  minAmountRequired : Option Json
  asset : Option Json
  maxTimeoutSeconds : Option Json
  extra : Option Json

/-- Modelled from the spec: the filter predicate of the v2
`selectPaymentRequirements` (missing from the sources).  Spec section 4.1:
entries whose network passes `isSupportedNetwork` and whose scheme is
exactly the UTXO scheme. -/
def isUtxoRequirementV2 (r : RequirementV2) : Bool :=
  (match r.network with
   | some n => isSupportedNetwork n
   | none => false) && r.scheme == some "utxo"

/-- Modelled from the spec: the v2 `selectPaymentRequirements` (missing from
the sources).  Spec section 4.1: filter, return the first surviving entry in
input order, fail when the filtered list is empty. -/
def selectPaymentRequirementsV2 (accepts : List RequirementV2) :
    Except String RequirementV2 :=
  match accepts.filter isUtxoRequirementV2 with
  | [] => .error "No BCH payment requirements found in 402 response"
  | r :: _ => .ok r

/-- Modelled from the spec: the owed amount of the v2 code,
`requirement.amount ?? requirement.minAmountRequired`, carried verbatim as
the JSON value the source provided (spec section 4.2). -/
def owedValueV2 (req : RequirementV2) : Json :=
  ((req.amount).orElse (fun _ => req.minAmountRequired)).getD Json.null

/-- Modelled from the spec: `buildAuthorization` of the v2 header codec
(missing from the sources).  Spec section 4.2: from, to, value owed, txid,
vout, and the signer's total funded amount. -/
def buildAuthorizationV2 (signer : Signer) (req : RequirementV2)
    (txid : Option String) (vout : Option Int) : Json :=
  .obj [("from", .str signer.address),
        ("to", .str req.payTo),
        ("value", owedValueV2 req),
        ("txid", optionStrJson txid),
        ("vout", optionIntJson vout),
        ("amount", .num signer.paymentAmountSats)]

/-- A key/value entry included only when the value is present, mirroring a
JS object field that `JSON.stringify` drops when `undefined`. -/
def optEntry (k : String) (v : Option Json) : List (String × Json) :=
  match v with
  | some j => [(k, j)]
  | none => []

/-- Modelled from the spec: the Generation-2 `accepted` object (missing from
the sources).  Spec sections 3 and 4.2: the selected requirement's fields,
with `network` defaulting to the namespaced mainnet identifier when the
requirement omits it. -/
def acceptedJson (req : RequirementV2) : Json :=
  .obj ([("scheme", .str (req.scheme.getD "utxo")),
         ("network", .str (req.network.getD CAIP_BCH_MAINNET)),
         ("amount", owedValueV2 req)]
    ++ optEntry "asset" req.asset
    ++ [("payTo", .str req.payTo)]
    ++ optEntry "maxTimeoutSeconds" req.maxTimeoutSeconds
    ++ optEntry "extra" req.extra)

/-- Modelled from the spec: the v2 `createPaymentHeader` (missing from the
sources), as the JSON object it serializes.  Spec section 4.2: sign the
serialized authorization; with version 1 emit the flat Generation-1 shape
with top-level `scheme`/`network` defaults, otherwise emit the Generation-2
shape with `accepted` and with `resource`/`extensions` included only when
non-null. -/
def buildHeaderV2Json (signer : Signer) (req : RequirementV2) (version : Int)
    (txid : Option String) (vout : Option Int)
    (resource : Option Json) (extensions : Option Json) : Json :=
  let auth := buildAuthorizationV2 signer req txid vout
  let payload : Json := .obj [("signature", .str (signer.signMessage auth.render)),
                              ("authorization", auth)]
  if version == 1 then
    .obj [("x402Version", .num version),
          ("scheme", .str (req.scheme.getD "utxo")),
          ("network", .str (req.network.getD "bch")),
          ("payload", payload)]
  else
    .obj ([("x402Version", .num version)]
      ++ optEntry "resource" resource
      ++ [("accepted", acceptedJson req)]
      ++ [("payload", payload)]
      ++ optEntry "extensions" extensions)

/-- Modelled from the spec: the serialized v2 payment header. -/
def buildHeaderV2 (signer : Signer) (req : RequirementV2) (version : Int)
    (txid : Option String) (vout : Option Int)
    (resource : Option Json) (extensions : Option Json) : String :=
  (buildHeaderV2Json signer req version txid vout resource extensions).render

/-! ## Protocol-v2 funding engine, modelled from the specification -/

/-- Whether `pat` occurs as a contiguous run inside a character list. -/
def charListContains (pat : List Char) : List Char → Bool
  | [] => pat.isPrefixOf []
  | c :: rest => pat.isPrefixOf (c :: rest) || charListContains pat rest

/-- JS `String.prototype.includes`: exact, case-sensitive substring test. -/
def strContainsSub (s pat : String) : Bool :=
  charListContains pat.data s.data

/-- Outcome of one invocation of the wallet's native send operation. -/
inductive WalletSend where
  | success : String → WalletSend
  | failure : String → WalletSend
deriving DecidableEq

/-- Modelled from the spec: the `sendWithRetry` wrapper the delegated
funding path submits to the retry queue (missing from the sources).  Spec
section 4.3: a wallet-reported error whose text contains the exact,
case-sensitive substring `Insufficient balance` yields the `null` sentinel
instead of raising; any other error is re-raised to the queue. -/
def sendWithRetryResult (send : WalletSend) : Except String (Option String) :=
  match send with
  | .success t => .ok (some t)
  | .failure m => if strContainsSub m "Insufficient balance" then .ok none else .error m

/-- Modelled from the spec: how the delegated path turns the retry queue's
final yield into a funding result (missing from the sources).  Spec section
4.3: the `null` sentinel makes `fund` fail with the insufficient-balance
error; a transaction id funds `{txid, vout: 0, satsSent: amount}`. -/
def fundDelegatedOutcome (paymentAmountSats : Int) (queueResult : Option String) :
    Except String FundResult :=
  match queueResult with
  | none => .error "Insufficient balance"
  | some t => .ok ⟨t, 0, paymentAmountSats⟩

/-- One output of a manually constructed transaction. -/
structure TxOutput where
  address : String
  amountSat : Int
deriving DecidableEq

/-- Manual-path funding failure: the fee-aware insufficient-funds check. -/
inductive ManualFundError where
  | insufficientFunds : ManualFundError
deriving DecidableEq

/-- Modelled from the spec: the manual path's fee estimate (missing from the
sources), the byte-count heuristic scaled by the fixed 1.2 multiplier (spec
section 4.3). -/
def manualTxFee (byteCount : Int) : Int :=
  byteCount * 12 / 10

/-- Modelled from the spec: the manual funding path's remainder arithmetic
and output construction (missing from the sources).  Spec section 4.3:
`remainder = utxoValue - amountToSend - fee`; negative remainder fails with
`InsufficientFunds`; otherwise the payment output is built first and a
change output returning the remainder to the signer's own address is added
only when the remainder is positive. -/
def buildManualOutputs (payTo changeAddr : String)
    (utxoValue amountToSend byteCount : Int) : Except ManualFundError (List TxOutput) :=
  let fee := manualTxFee byteCount
  let remainder := utxoValue - amountToSend - fee
  if remainder < 0 then .error .insufficientFunds
  else if 0 < remainder then .ok [⟨payTo, amountToSend⟩, ⟨changeAddr, remainder⟩]
  else .ok [⟨payTo, amountToSend⟩]

/-! ## Concrete instances used by counterexamples and witnesses -/

/-- A concrete signer whose signing capability is the identity function. -/
def exSigner : Signer := ⟨"bitcoincash:qptest", 2000, "test-wif", fun _ => "signed"⟩

/-- A concrete v1 BCH `utxo` requirement. -/
def exReq : PaymentRequirement := ⟨some "utxo", some "bch", "bitcoincash:qprecv", 1500⟩

/-- A concrete 402 response offering `exReq`. -/
def exResp : AxiosResponse := ⟨402, some ⟨some 1, some [exReq]⟩⟩

/-- A request configuration that carries the retry marker but no header
map. -/
def exCfgNoHeaders : AxiosConfig := ⟨none, true⟩

/-- A 402 error whose configuration carries the retry marker but lacks a
header map. -/
def exErrorNoHeaders : AxiosError := ⟨some exResp, some exCfgNoHeaders⟩

/-- A request configuration that carries the retry marker and an (empty)
header map. -/
def exCfgRetry : AxiosConfig := ⟨some [], true⟩

/-- A 402 error marked as a retry, with a header map present. -/
def exErrorRetry : AxiosError := ⟨some exResp, some exCfgRetry⟩

/-- A concrete v2 requirement offering a `bip122:` network. -/
def exReqV2 : RequirementV2 :=
  ⟨some "utxo", some CAIP_BCH_MAINNET, "bitcoincash:qprecv",
   some (.str "1500"), none, none, none, none⟩

/-- A concrete v2 requirement on an unsupported network. -/
def exReqV2Eth : RequirementV2 :=
  ⟨some "exact", some "eip155:84532", "0xabc", some (.str "1500"), none, none, none, none⟩

/-- A concrete v2 requirement that omits its network. -/
def exReqV2NoNet : RequirementV2 :=
  ⟨some "utxo", none, "bitcoincash:qprecv", none, some (.num 1500), none, none, none⟩

/-! # Theorems -/

/-- C9: For every signer, requirement, version, txid and vout, the string
`createPaymentHeader` passes to `signer.signMessage` is exactly the JSON
serialization of the authorization object embedded at
`payload.authorization` of the returned header: extracting
`payload.authorization` from the header object and serializing it
reproduces the signed message byte for byte, and the returned header string
is the serialization of that header object (so parsing it and
re-serializing its `payload.authorization` field yields the signed
message). -/
theorem claim_C9 (signer : Signer) (req : PaymentRequirement) (x402Version : Int)
    (txid : Option String) (vout : Option Int) :
    (((paymentHeaderJsonV1 signer req x402Version txid vout).getKey "payload").bind
        (fun p => p.getKey "authorization")).map Json.render
      = some (signedMessageV1 signer req txid vout)
    ∧ signedMessageV1 signer req txid vout
      = (buildAuthorizationV1 signer req txid vout).render
    ∧ createPaymentHeader signer req x402Version txid vout
      = (paymentHeaderJsonV1 signer req x402Version txid vout).render :=
  ⟨rfl, rfl, rfl⟩

/-- C6: For every signer, version, txid and vout, a v2 requirement whose
only amount field is `minAmountRequired = n` produces the same owed value,
the same authorization, and the same signed value from the v2 header
builder as an otherwise-identical requirement whose only amount field is
`amount = n`. -/
theorem claim_C6 (signer : Signer) (version : Int) (txid : Option String)
    (vout : Option Int) (resource extensions : Option Json)
    (scheme network : Option String) (payTo : String)
    (asset maxTimeoutSeconds extra : Option Json) (n : Json) :
    owedValueV2 ⟨scheme, network, payTo, some n, none, asset, maxTimeoutSeconds, extra⟩
      = owedValueV2 ⟨scheme, network, payTo, none, some n, asset, maxTimeoutSeconds, extra⟩
    ∧ buildAuthorizationV2 signer
        ⟨scheme, network, payTo, some n, none, asset, maxTimeoutSeconds, extra⟩ txid vout
      = buildAuthorizationV2 signer
        ⟨scheme, network, payTo, none, some n, asset, maxTimeoutSeconds, extra⟩ txid vout
    ∧ signer.signMessage (buildAuthorizationV2 signer
        ⟨scheme, network, payTo, some n, none, asset, maxTimeoutSeconds, extra⟩ txid vout).render
      = signer.signMessage (buildAuthorizationV2 signer
        ⟨scheme, network, payTo, none, some n, asset, maxTimeoutSeconds, extra⟩ txid vout).render
    ∧ buildHeaderV2Json signer
        ⟨scheme, network, payTo, some n, none, asset, maxTimeoutSeconds, extra⟩
        version txid vout resource extensions
      = buildHeaderV2Json signer
        ⟨scheme, network, payTo, none, some n, asset, maxTimeoutSeconds, extra⟩
        version txid vout resource extensions :=
  ⟨rfl, rfl, rfl, rfl⟩

/-- C7: On the delegated funding path, a wallet-send error whose text
contains the exact, case-sensitive substring `Insufficient balance` makes
the retry-queue-wrapped call return the `null` sentinel instead of raising;
any other wallet-send error is re-raised to the retry queue; and when the
queue ultimately yields the sentinel, the funding operation fails with the
insufficient-balance error instead of returning a result. -/
theorem claim_C7 :
    (∀ t, sendWithRetryResult (.success t) = .ok (some t))
    ∧ (∀ m, strContainsSub m "Insufficient balance" = true →
        sendWithRetryResult (.failure m) = .ok none)
    ∧ (∀ m, strContainsSub m "Insufficient balance" = false →
        sendWithRetryResult (.failure m) = .error m)
    ∧ (∀ amt, fundDelegatedOutcome amt none = .error "Insufficient balance")
    ∧ (∀ amt t, fundDelegatedOutcome amt (some t) = .ok ⟨t, 0, amt⟩) := by
  refine ⟨fun t => rfl, fun m h => ?_, fun m h => ?_, fun amt => rfl, fun amt t => rfl⟩
  · simp [sendWithRetryResult, h]
  · simp [sendWithRetryResult, h]

/-- C7 witness: a message containing the exact substring yields the
sentinel; a case-mismatched message is re-raised. -/
theorem claim_C7_witness :
    (strContainsSub "Error: Insufficient balance" "Insufficient balance" = true
      ∧ sendWithRetryResult (.failure "Error: Insufficient balance") = .ok none)
    ∧ (strContainsSub "INSUFFICIENT BALANCE" "Insufficient balance" = false
      ∧ sendWithRetryResult (.failure "INSUFFICIENT BALANCE")
          = .error "INSUFFICIENT BALANCE") :=
  ⟨⟨by decide, claim_C7.2.1 _ (by decide)⟩,
   ⟨by decide, claim_C7.2.2.1 _ (by decide)⟩⟩

/-- C8: On the manual funding path, with fee the byte-count heuristic
scaled by 1.2 and `remainder = utxoValue - amountToSend - fee`, a negative
remainder fails with the insufficient-funds error, while a positive
remainder builds the payment output first followed by a change output
returning the remainder to the signer's own address. -/
theorem claim_C8 (payTo changeAddr : String) (utxoValue amountToSend byteCount : Int) :
    (utxoValue - amountToSend - manualTxFee byteCount < 0 →
      buildManualOutputs payTo changeAddr utxoValue amountToSend byteCount
        = .error .insufficientFunds)
    ∧ (0 < utxoValue - amountToSend - manualTxFee byteCount →
      buildManualOutputs payTo changeAddr utxoValue amountToSend byteCount
        = .ok [⟨payTo, amountToSend⟩,
               ⟨changeAddr, utxoValue - amountToSend - manualTxFee byteCount⟩]) := by
  constructor
  · intro h
    unfold buildManualOutputs
    rw [if_pos h]
  · intro h
    unfold buildManualOutputs
    rw [if_neg (by omega), if_pos h]

/-- C8 witness: UTXO value 10200, amount 10000, byte count 250 give fee 300
and remainder −100, failing with insufficient funds; UTXO value 5000,
amount 2000 give a positive remainder of 2700 and the two-output
transaction. -/
theorem claim_C8_witness :
    manualTxFee 250 = 300
    ∧ ((10200 : Int) - 10000 - manualTxFee 250 < 0
      ∧ buildManualOutputs "bitcoincash:qprecv" "bitcoincash:qptest" 10200 10000 250
          = .error .insufficientFunds)
    ∧ ((0 : Int) < 5000 - 2000 - manualTxFee 250
      ∧ buildManualOutputs "bitcoincash:qprecv" "bitcoincash:qptest" 5000 2000 250
          = .ok [⟨"bitcoincash:qprecv", 2000⟩, ⟨"bitcoincash:qptest", 2700⟩]) :=
  ⟨by decide,
   ⟨by decide,
    (claim_C8 "bitcoincash:qprecv" "bitcoincash:qptest" 10200 10000 250).1 (by decide)⟩,
   ⟨by decide,
    (claim_C8 "bitcoincash:qprecv" "bitcoincash:qptest" 5000 2000 250).2 (by decide)⟩⟩

/-- Unfolding of the v2 selector on a cons cell. -/
theorem selectV2_cons (a : RequirementV2) (l : List RequirementV2) :
    selectPaymentRequirementsV2 (a :: l) =
      if isUtxoRequirementV2 a then .ok a else selectPaymentRequirementsV2 l := by
  unfold selectPaymentRequirementsV2
  cases h : isUtxoRequirementV2 a <;> simp [List.filter_cons, h]

/-- C2: A v2 payment requirement passes selection iff its scheme is exactly
the UTXO scheme and its network is accepted; the accepted networks are
exactly the legacy literal `bch`, the namespaced mainnet identifier, and
any identifier starting with `bip122:`, all others being rejected; and the
v2 selector returns the first qualifying entry in input order, failing
exactly when no entry qualifies. -/
theorem claim_C2 :
    (∀ n : String, isSupportedNetwork n = true ↔
      (n = "bch" ∨ n = CAIP_BCH_MAINNET ∨ strStartsWith n "bip122:" = true))
    ∧ (∀ (accepts : List RequirementV2) (r : RequirementV2),
        selectPaymentRequirementsV2 accepts = .ok r ↔
          accepts.find? isUtxoRequirementV2 = some r)
    ∧ (∀ accepts : List RequirementV2,
        (∃ e, selectPaymentRequirementsV2 accepts = .error e) ↔
          ∀ r ∈ accepts, isUtxoRequirementV2 r = false) := by
  refine ⟨?_, ?_, ?_⟩
  · intro n
    simp only [isSupportedNetwork, Bool.or_eq_true, beq_iff_eq]
    tauto
  · intro accepts r
    induction accepts with
    | nil => simp [selectPaymentRequirementsV2]
    | cons a l ih =>
      rw [selectV2_cons]
      cases h : isUtxoRequirementV2 a
      · simp [List.find?_cons, h, ih]
      · simp [List.find?_cons, h]
  · intro accepts
    induction accepts with
    | nil => simp [selectPaymentRequirementsV2]
    | cons a l ih =>
      rw [selectV2_cons]
      cases h : isUtxoRequirementV2 a
      · simpa [h] using ih
      · simp [h]

/-- C2 witness: a concrete list whose first entry is unsupported and whose
second is a `bip122:` UTXO requirement selects the second, while a list
with only unsupported entries fails. -/
theorem claim_C2_witness :
    isSupportedNetwork CAIP_BCH_MAINNET = true
    ∧ isSupportedNetwork "eip155:84532" = false
    ∧ selectPaymentRequirementsV2 [exReqV2Eth, exReqV2] = .ok exReqV2 :=
  ⟨by decide, by decide, (claim_C2.2.1 [exReqV2Eth, exReqV2] exReqV2).mpr rfl⟩

/-- The v2 header builder reduces to the Generation-2 shape whenever the
version is not `1`. -/
theorem buildHeaderV2Json_of_ne_one (signer : Signer) (req : RequirementV2)
    (version : Int) (txid : Option String) (vout : Option Int)
    (resource extensions : Option Json) (h : (version == 1) = false) :
    buildHeaderV2Json signer req version txid vout resource extensions =
      .obj ([("x402Version", .num version)]
        ++ optEntry "resource" resource
        ++ [("accepted", acceptedJson req)]
        ++ [("payload", .obj [
              ("signature", .str (signer.signMessage
                (buildAuthorizationV2 signer req txid vout).render)),
              ("authorization", buildAuthorizationV2 signer req txid vout)])]
        ++ optEntry "extensions" extensions) := by
  unfold buildHeaderV2Json
  simp [h]

/-- C5: With version 1 the header builder emits the Generation-1 flat
object with top-level `scheme` and `network` and no
`accepted`/`resource`/`extensions` keys; with any version ≥ 2 it emits the
Generation-2 object with no top-level `scheme`/`network`, an `accepted`
object whose `network` defaults to the namespaced mainnet identifier when
the requirement omits it, and `resource`/`extensions` keys present exactly
when the corresponding argument is non-null. -/
theorem claim_C5 (signer : Signer) (req : RequirementV2) (txid : Option String)
    (vout : Option Int) (resource extensions : Option Json) :
    ((buildHeaderV2Json signer req 1 txid vout resource extensions).hasKey "scheme" = true
     ∧ (buildHeaderV2Json signer req 1 txid vout resource extensions).hasKey "network" = true
     ∧ (buildHeaderV2Json signer req 1 txid vout resource extensions).hasKey "accepted" = false
     ∧ (buildHeaderV2Json signer req 1 txid vout resource extensions).hasKey "resource" = false
     ∧ (buildHeaderV2Json signer req 1 txid vout resource extensions).hasKey "extensions" = false)
    ∧ (∀ version : Int, 2 ≤ version →
      (buildHeaderV2Json signer req version txid vout resource extensions).hasKey "scheme" = false
      ∧ (buildHeaderV2Json signer req version txid vout resource extensions).hasKey "network" = false
      ∧ (buildHeaderV2Json signer req version txid vout resource extensions).hasKey "accepted" = true
      ∧ (buildHeaderV2Json signer req version txid vout resource extensions).hasKey "resource"
          = resource.isSome
      ∧ (buildHeaderV2Json signer req version txid vout resource extensions).hasKey "extensions"
          = extensions.isSome
      ∧ (req.network = none →
          ((buildHeaderV2Json signer req version txid vout resource extensions).getKey
              "accepted").bind (fun a => a.getKey "network")
            = some (.str CAIP_BCH_MAINNET))) := by
  constructor
  · exact ⟨rfl, rfl, rfl, rfl, rfl⟩
  · intro version hv
    have hne : (version == 1) = false := by
      simp only [beq_eq_false_iff_ne, ne_eq]
      omega
    rw [buildHeaderV2Json_of_ne_one signer req version txid vout resource extensions hne]
    obtain ⟨rscheme, rnetwork, rpayTo, ramount, rmin, rasset, rmts, rextra⟩ := req
    rcases resource with _ | rj <;> rcases extensions with _ | ej <;>
      refine ⟨rfl, rfl, rfl, rfl, rfl, fun hn => ?_⟩ <;>
      · simp only at hn
        subst hn
        rfl

/-- C5 witness: concrete instantiations of both generations, including the
network default when the requirement omits its network. -/
theorem claim_C5_witness :
    (2 ≤ (2 : Int))
    ∧ (buildHeaderV2Json exSigner exReqV2NoNet 2 (some "tx123") (some 0)
        (some (.str "res")) none).hasKey "scheme" = false
    ∧ (buildHeaderV2Json exSigner exReqV2NoNet 2 (some "tx123") (some 0)
        (some (.str "res")) none).hasKey "accepted" = true
    ∧ (buildHeaderV2Json exSigner exReqV2NoNet 2 (some "tx123") (some 0)
        (some (.str "res")) none).hasKey "resource" = true
    ∧ (buildHeaderV2Json exSigner exReqV2NoNet 2 (some "tx123") (some 0)
        (some (.str "res")) none).hasKey "extensions" = false
    ∧ ((buildHeaderV2Json exSigner exReqV2NoNet 2 (some "tx123") (some 0)
        (some (.str "res")) none).getKey "accepted").bind (fun a => a.getKey "network")
        = some (.str CAIP_BCH_MAINNET) := by
  have h := (claim_C5 exSigner exReqV2NoNet (some "tx123") (some 0)
    (some (.str "res")) none).2 2 (by norm_num)
  exact ⟨by norm_num, h.1, h.2.2.1, h.2.2.2.1, h.2.2.2.2.1, h.2.2.2.2.2 rfl⟩

/-- C3 counterexample: the source guard is JS truthiness `!currentUtxo.txid`,
which also fires on the empty string.  A cache holding the non-null txid
`""` with `satsLeft = 2000` against an owed amount of 1500 triggers a
funding call (count 1, cache overwritten with the funded output) even
though the claim requires reuse with zero funding calls. -/
theorem claim_C3_counterexample :
    (⟨some "", some 0, 2000⟩ : UtxoCache).txid ≠ none
    ∧ (1500 : Int) ≤ (⟨some "", some 0, 2000⟩ : UtxoCache).satsLeft
    ∧ (settleStep ⟨some "", some 0, 2000⟩ 1500 ⟨"B", 0, 2000⟩).2 = 1
    ∧ (settleStep ⟨some "", some 0, 2000⟩ 1500 ⟨"B", 0, 2000⟩).1
        = ⟨some "B", some 0, 500⟩ := by
  refine ⟨by decide, by decide, by decide, by decide⟩

/-- C3 (amended): for every settlement with owed amount `cost`, if the
cached record holds a non-null, non-empty txid and `cost ≤ satsLeft`, no
funding call occurs and the cache becomes `{same txid, same vout,
satsLeft - cost}`; if instead the txid is null or empty or
`satsLeft < cost`, the funding function is called exactly once and the
cache is overwritten with `{funded txid, funded vout, satsSent - cost}`. -/
theorem claim_C3 (cache : UtxoCache) (cost : Int) (p : FundResult) :
    (cache.txid ≠ none → cache.txid ≠ some "" → cost ≤ cache.satsLeft →
      settleStep cache cost p = (⟨cache.txid, cache.vout, cache.satsLeft - cost⟩, 0))
    ∧ ((cache.txid = none ∨ cache.txid = some "" ∨ cache.satsLeft < cost) →
      settleStep cache cost p = (⟨some p.txid, some p.vout, p.satsSent - cost⟩, 1)) := by
  constructor
  · intro h1 h2 h3
    have hguard : needsFunding cache cost = false := by
      unfold needsFunding jsFalsyStr
      rcases htx : cache.txid with _ | s
      · exact absurd htx h1
      · rw [htx] at h2
        have hs : s ≠ "" := fun hss => h2 (by rw [hss])
        simp [hs, not_lt.mpr h3]
    simp [settleStep, hguard]
  · intro h
    have hguard : needsFunding cache cost = true := by
      unfold needsFunding jsFalsyStr
      rcases h with h | h | h
      · simp [h]
      · simp [h]
      · rcases cache.txid with _ | s <;> simp [h]
    simp [settleStep, hguard]

/-- C3 witness: the two settlement scenarios of the specification — reuse
of cache `{txid:"A", vout:1, satsLeft:2000}` against 1500 with zero funding
calls, and funding from the empty cache with `{txid:"B", vout:0,
satsSent:2000}` against 1500. -/
theorem claim_C3_witness :
    ((⟨some "A", some 1, 2000⟩ : UtxoCache).txid ≠ none
      ∧ (⟨some "A", some 1, 2000⟩ : UtxoCache).txid ≠ some ""
      ∧ (1500 : Int) ≤ 2000
      ∧ settleStep ⟨some "A", some 1, 2000⟩ 1500 ⟨"B", 0, 2000⟩
          = (⟨some "A", some 1, 500⟩, 0))
    ∧ (initialUtxo.txid = none
      ∧ settleStep initialUtxo 1500 ⟨"B", 0, 2000⟩ = (⟨some "B", some 0, 500⟩, 1)) :=
  ⟨⟨by decide, by decide, by decide,
    (claim_C3 ⟨some "A", some 1, 2000⟩ 1500 ⟨"B", 0, 2000⟩).1
      (by decide) (by decide) (by decide)⟩,
   ⟨rfl,
    (claim_C3 initialUtxo 1500 ⟨"B", 0, 2000⟩).2 (Or.inl rfl)⟩⟩

/-- C4 counterexample: the settlement logic itself enforces no floor — a
funding result whose `satsSent` (1000) is below the owed amount (1500)
drives the cache to `satsLeft = -500 < 0` in a single settlement from the
empty cache, so the unrestricted claim is false. -/
theorem claim_C4_counterexample :
    (runSettlements [(1500, ⟨"B", 0, 1000⟩)]).satsLeft = -500
    ∧ (runSettlements [(1500, ⟨"B", 0, 1000⟩)]).satsLeft < 0 := by
  refine ⟨by decide, by decide⟩

/-- One settlement leaves `satsLeft` non-negative provided the funding
result covers the owed amount: the reuse branch is guarded by
`satsLeft ≥ cost` and the funding branch leaves `satsSent - cost`. -/
theorem settleStep_satsLeft_nonneg (cache : UtxoCache) (cost : Int) (p : FundResult)
    (hf : cost ≤ p.satsSent) :
    0 ≤ (settleStep cache cost p).1.satsLeft := by
  unfold settleStep
  split
  · simp
    omega
  · next hguard =>
    have hlt : ¬ (cache.satsLeft < cost) := by
      intro hcl
      exact hguard (by unfold needsFunding; simp [hcl])
    simp
    omega

/-- Folding settlements preserves non-negativity of `satsLeft`. -/
theorem runSettlements_aux (steps : List (Int × FundResult)) (cache : UtxoCache)
    (h0 : 0 ≤ cache.satsLeft) (h : ∀ s ∈ steps, s.1 ≤ s.2.satsSent) :
    0 ≤ (steps.foldl (fun c s => (settleStep c s.1 s.2).1) cache).satsLeft := by
  induction steps generalizing cache with
  | nil => simpa using h0
  | cons a l ih =>
    simp only [List.foldl_cons]
    apply ih
    · exact settleStep_satsLeft_nonneg cache a.1 a.2 (h a (List.mem_cons_self a l))
    · intro s hs
      exact h s (List.mem_cons_of_mem a hs)

/-- C4 (amended): for every sequence of interceptor settlements starting
from the empty cache, the cache satisfies `satsLeft ≥ 0` after every
settlement, provided every funding result supplied covers the owed amount
of its step (`satsSent ≥ cost`) — the restriction the counterexample
forces, since the settlement logic enforces no floor of its own. -/
theorem claim_C4 (steps : List (Int × FundResult))
    (h : ∀ s ∈ steps, s.1 ≤ s.2.satsSent) (n : Nat) :
    0 ≤ (runSettlements (steps.take n)).satsLeft := by
  unfold runSettlements
  apply runSettlements_aux (steps.take n) initialUtxo le_rfl
  intro s hs
  exact h s (List.take_subset n steps hs)

/-- C4 witness: a two-step settlement sequence whose funding results cover
their owed amounts keeps `satsLeft` non-negative after each prefix. -/
theorem claim_C4_witness :
    (∀ s ∈ [((1500 : Int), (⟨"B", 0, 2000⟩ : FundResult)),
            ((400 : Int), (⟨"C", 0, 400⟩ : FundResult))], s.1 ≤ s.2.satsSent)
    ∧ 0 ≤ (runSettlements ([((1500 : Int), (⟨"B", 0, 2000⟩ : FundResult)),
            ((400 : Int), (⟨"C", 0, 400⟩ : FundResult))].take 1)).satsLeft
    ∧ 0 ≤ (runSettlements ([((1500 : Int), (⟨"B", 0, 2000⟩ : FundResult)),
            ((400 : Int), (⟨"C", 0, 400⟩ : FundResult))].take 2)).satsLeft :=
  ⟨by decide,
   claim_C4 [(1500, ⟨"B", 0, 2000⟩), (400, ⟨"C", 0, 400⟩)] (by decide) 1,
   claim_C4 [(1500, ⟨"B", 0, 2000⟩), (400, ⟨"C", 0, 400⟩)] (by decide) 2⟩

/-- C1 counterexample: the handler checks for a missing header map before
it checks the retry marker (`src/index.js` lines 175-181), so a 402 whose
configuration carries the retry marker but no header map rejects with the
new `Missing axios request configuration` error, not with the original
error as the claim states. -/
theorem claim_C1_counterexample :
    exErrorNoHeaders.response = some exResp
    ∧ exResp.status = 402
    ∧ exErrorNoHeaders.config = some exCfgNoHeaders
    ∧ exCfgNoHeaders.is402Retry = true
    ∧ (handle402 selectPaymentRequirements exSigner exErrorNoHeaders initialUtxo
        (Except.error "no funding")).outcome
        = Outcome.rejectError "Missing axios request configuration"
    ∧ (handle402 selectPaymentRequirements exSigner exErrorNoHeaders initialUtxo
        (Except.error "no funding")).outcome ≠ Outcome.rejectOriginal :=
  ⟨rfl, rfl, rfl, rfl, rfl, by decide⟩

/-- C1 (amended): for every intercepted error with status 402 whose request
configuration has a header map and already carries the `__is402Retry`
marker, the handler rejects with the original error, calls the funding
function zero times, and does not replay the request. -/
theorem claim_C1
    (selector : List PaymentRequirement → Except String PaymentRequirement)
    (signer : Signer) (error : AxiosError) (cache : UtxoCache)
    (fund : Except String FundResult) (resp : AxiosResponse) (cfg : AxiosConfig)
    (hs : List (String × String))
    (h1 : error.response = some resp) (h2 : resp.status = 402)
    (h3 : error.config = some cfg) (h4 : cfg.headers = some hs)
    (h5 : cfg.is402Retry = true) :
    handle402 selector signer error cache fund =
      ⟨Outcome.rejectOriginal, cache, 0⟩ := by
  have hb : (resp.status != 402) = false := by simp [h2]
  simp [handle402, h1, hb, h3, h4, h5]

/-- C1 witness: a concrete 402 error whose configuration has an (empty)
header map and the retry marker set rejects with the original error,
leaves the cache untouched and performs zero funding calls. -/
theorem claim_C1_witness :
    exErrorRetry.response = some exResp
    ∧ exResp.status = 402
    ∧ exErrorRetry.config = some exCfgRetry
    ∧ exCfgRetry.headers = some []
    ∧ exCfgRetry.is402Retry = true
    ∧ handle402 selectPaymentRequirements exSigner exErrorRetry initialUtxo
        (Except.error "no funding") = ⟨Outcome.rejectOriginal, initialUtxo, 0⟩ :=
  ⟨rfl, rfl, rfl, rfl, rfl,
   claim_C1 selectPaymentRequirements exSigner exErrorRetry initialUtxo
     (Except.error "no funding") exResp exCfgRetry [] rfl rfl rfl rfl rfl⟩

/-- C10: whenever the handler rejects without invoking the funding/reuse
step — the error carries no response or is not a 402, the request
configuration or its header map is absent, the retry marker is already
set, the accepts list is missing or empty, or the requirement selector
throws — the UTXO cache record is left exactly as it was before the call
(same txid, vout and satsLeft). -/
theorem claim_C10
    (selector : List PaymentRequirement → Except String PaymentRequirement)
    (signer : Signer) (error : AxiosError) (cache : UtxoCache)
    (fund : Except String FundResult)
    (h : error.response = none
      ∨ (∀ resp, error.response = some resp → resp.status ≠ 402)
      ∨ error.config = none
      ∨ (∀ cfg, error.config = some cfg → cfg.headers = none)
      ∨ (∀ cfg, error.config = some cfg → cfg.is402Retry = true)
      ∨ (∀ resp, error.response = some resp →
          resp.data.bind (fun d => d.accepts) = none)
      ∨ (∀ resp, error.response = some resp →
          resp.data.bind (fun d => d.accepts) = some [])
      ∨ (∃ m, selector (extractAccepts error) = Except.error m)) :
    (handle402 selector signer error cache fund).cache = cache := by
  rcases hr : error.response with _ | resp
  · simp [handle402, hr]
  by_cases hst : resp.status = 402
  case neg =>
    have hb : (resp.status != 402) = true := by simpa using hst
    simp [handle402, hr, hb]
  have hb : (resp.status != 402) = false := by simp [hst]
  rcases hc : error.config with _ | cfg
  · simp [handle402, hr, hb, hc]
  rcases hh : cfg.headers with _ | hdrs
  · simp [handle402, hr, hb, hc, hh]
  by_cases hretry : cfg.is402Retry = true
  · simp [handle402, hr, hb, hc, hh, hretry]
  have hrf : cfg.is402Retry = false := by
    revert hretry
    cases cfg.is402Retry <;> simp
  rcases hacc : resp.data.bind (fun d => d.accepts) with _ | accepts
  · simp [handle402, hr, hb, hc, hh, hrf, hacc]
  rcases accepts with _ | ⟨a, l⟩
  · simp [handle402, hr, hb, hc, hh, hrf, hacc]
  rcases hselr : selector (a :: l) with m | req
  · simp [handle402, hr, hb, hc, hh, hrf, hacc, hselr]
  exfalso
  rcases h with h | h | h | h | h | h | h | ⟨m, h⟩
  · rw [hr] at h
    cases h
  · exact (h resp hr) hst
  · rw [hc] at h
    cases h
  · have hx := h cfg hc
    rw [hh] at hx
    cases hx
  · rw [h cfg hc] at hrf
    cases hrf
  · have hx := h resp hr
    rw [hacc] at hx
    cases hx
  · have hx := h resp hr
    rw [hacc] at hx
    simp at hx
  · have hext : extractAccepts error = a :: l := by
      unfold extractAccepts
      rw [hr]
      simp [hacc]
    rw [hext, hselr] at h
    cases h

/-- C10 witness: a concrete non-402 error and a concrete retry-marked 402
both leave the empty cache untouched. -/
theorem claim_C10_witness :
    (handle402 selectPaymentRequirements exSigner ⟨some ⟨400, none⟩, some ⟨some [], false⟩⟩
        initialUtxo (Except.error "no funding")).cache = initialUtxo
    ∧ (handle402 selectPaymentRequirements exSigner exErrorRetry
        initialUtxo (Except.error "no funding")).cache = initialUtxo :=
  ⟨claim_C10 selectPaymentRequirements exSigner ⟨some ⟨400, none⟩, some ⟨some [], false⟩⟩
      initialUtxo (Except.error "no funding")
      (Or.inr (Or.inl (fun resp hresp => by
        cases hresp
        decide))),
   claim_C10 selectPaymentRequirements exSigner exErrorRetry
      initialUtxo (Except.error "no funding")
      (Or.inr (Or.inr (Or.inr (Or.inr (Or.inl (fun cfg hcfg => by
        cases hcfg
        rfl))))))⟩

end X402
